import Mathlib

/-!
Verification of the generative-poster repository (five Streamlit app variants).

The Python sources are shallowly embedded below.  Randomness is modelled
explicitly: a pseudo-random algorithm is a family `ℕ → ℕ → α` mapping a seed
to an infinite stream of draws in `[0,1)`, and the module-level state of
Python's `random` / `numpy.random` is an `RState`: a stream together with a
cursor position.  `random.seed(s)` replaces the state by the seeded stream at
position 0.  Real-valued geometry (the `blob` shape generator) is embedded
over `ℝ`; discrete and palette logic is generic over a linear ordered field
so that concrete witnesses can be evaluated over `ℚ`.
-/

/-- State of a Python random module: the stream determined by the last seed,
and the position of the next draw. -/
structure RState (α : Type) where
  stream : ℕ → α
  pos : ℕ

/-- One draw (`random.random()` / one element of `np.random.rand`): returns the
value at the cursor and advances the cursor. -/
def RState.next {α : Type} (st : RState α) : α × RState α :=
  (st.stream st.pos, ⟨st.stream, st.pos + 1⟩)

/-- A block of `n` draws (`np.random.rand(n)`): the `i`-th element of the block
and the advanced state. -/
def randN {α : Type} (st : RState α) (n : ℕ) : (ℕ → α) × RState α :=
  (fun i => st.stream (st.pos + i), ⟨st.stream, st.pos + n⟩)

/-- Seeding (`random.seed(s)` / `np.random.seed(s)`): the module state becomes
the stream of the given algorithm at seed `s`, cursor at 0. -/
def seedState {α : Type} (alg : ℕ → ℕ → α) (s : ℕ) : RState α :=
  ⟨alg s, 0⟩

/-- Python `random.uniform(a, b)`, which CPython computes as
`a + (b - a) * random()` from one draw `u`. -/
def uniform {α : Type} [LinearOrderedField α] (a b u : α) : α :=
  a + (b - a) * u

/-- Conversion to int as numpy `.astype(int)` does it: truncation toward zero. -/
def pytrunc {α : Type} [LinearOrderedField α] [FloorRing α] (x : α) : ℤ :=
  if x < 0 then ⌈x⌉ else ⌊x⌋

/-- Python `random.choice(seq)`: one draw selects an index below `len(seq)`.
The Mersenne-twister `_randbelow` is abstracted as `trunc (u * len)`. -/
def pychoice {α : Type} [LinearOrderedField α] [FloorRing α]
    {β : Type} (xs : List β) (d : β) (u : α) : β :=
  xs.getD (pytrunc (u * (xs.length : α))).toNat d

/-- Fractional part used by matplotlib `hsv_to_rgb`: `f = h*6 - int(h*6)`. -/
def hsvF {α : Type} [LinearOrderedField α] [FloorRing α] (h : α) : α :=
  h * 6 - (pytrunc (h * 6) : α)

/-- matplotlib `hsv_to_rgb` intermediate `p = v * (1 - s)`. -/
def hsvP {α : Type} [LinearOrderedField α] (s v : α) : α :=
  v * (1 - s)

/-- matplotlib `hsv_to_rgb` intermediate `q = v * (1 - s*f)`. -/
def hsvQ {α : Type} [LinearOrderedField α] [FloorRing α] (h s v : α) : α :=
  v * (1 - s * hsvF h)

/-- matplotlib `hsv_to_rgb` intermediate `t = v * (1 - s*(1-f))`. -/
def hsvT {α : Type} [LinearOrderedField α] [FloorRing α] (h s v : α) : α :=
  v * (1 - s * (1 - hsvF h))

/-- matplotlib `hsv_to_rgb` on a single `[h, s, v]` triple: case split on
`int(h*6) % 6` selecting the `(r, g, b)` components among `v, p, q, t`. -/
def hsv_to_rgb {α : Type} [LinearOrderedField α] [FloorRing α]
    (h s v : α) : α × α × α :=
  if pytrunc (h * 6) % 6 = 0 then (v, hsvT h s v, hsvP s v)
  else if pytrunc (h * 6) % 6 = 1 then (hsvQ h s v, v, hsvP s v)
  else if pytrunc (h * 6) % 6 = 2 then (hsvP s v, v, hsvT h s v)
  else if pytrunc (h * 6) % 6 = 3 then (hsvP s v, hsvQ h s v, v)
  else if pytrunc (h * 6) % 6 = 4 then (hsvT h s v, hsvP s v, v)
  else (v, hsvP s v, hsvQ h s v)

/-- A value held in a pandas cell after `pd.read_csv` type inference: a number
if the column parsed as numeric, otherwise the raw string. -/
abbrev PCell (α : Type) := α ⊕ String

/-- A palette entry as the Python code handles it: a triple of cell values
(`(row.r, row.g, row.b)`). -/
abbrev PColor (α : Type) := PCell α × PCell α × PCell α

/-- The parsed palette table (`pd.read_csv(PALETTE_FILE)`): column names from
the header row, and one list of cells per data row. -/
structure Table (α : Type) where
  cols : List String
  rows : List (List (PCell α))

/-- Index of a named column in the header, if present. -/
def colIdx : List String → String → Option ℕ
  | [], _ => none
  | c :: cs, nm => if c = nm then some 0 else (colIdx cs nm).map (· + 1)

/-- Embedding of `load_csv_palette` (app-final lines 39-41, week-5 lines
414-416): read the table and return `[(row.r, row.g, row.b) for row in
df.itertuples()]`.  The attribute access happens per yielded row, so it
raises (`AttributeError`) on a missing column only when the table has at
least one data row — on an empty table the comprehension yields nothing and
`[]` is returned even if required columns are absent.  Cell values are
returned untouched — there is no numeric or range validation anywhere in the
source. -/
def load_csv_palette {α : Type} (t : Table α) :
    Except String (List (PColor α)) :=
  match t.rows with
  | [] => .ok []
  | r0 :: rs =>
    match colIdx t.cols "r", colIdx t.cols "g", colIdx t.cols "b" with
    | some ir, some ig, some ib =>
        .ok ((r0 :: rs).map fun row =>
          (row.getD ir (Sum.inr ""), row.getD ig (Sum.inr ""), row.getD ib (Sum.inr "")))
    | _, _, _ => .error "AttributeError"

/-- Numeric RGB triple wrapped as palette cells (procedural colors are always
numeric). -/
def numColor {α : Type} (c : α × α × α) : PColor α :=
  (Sum.inl c.1, Sum.inl c.2.1, Sum.inl c.2.2)

/-- One iteration of the app-final `make_palette` loop (part_000 lines 50-66):
the mode-dependent `(h, s, v)` draws, consuming from the `random` module
state.  Hue for pastel/vivid/default is `uniform(0.5, 0.7)`; mono uses the
fixed `base_h`. -/
def paletteDraws {α : Type} [LinearOrderedField α]
    (mode : String) (base_h : α) (st : RState α) : (α × α × α) × RState α :=
  if mode = "pastel" then
    let u1 := st.next
    let u2 := u1.2.next
    let u3 := u2.2.next
    ((uniform 0.5 0.7 u1.1, uniform 0.15 0.35 u2.1, uniform 0.8 1.0 u3.1), u3.2)
  else if mode = "vivid" then
    let u1 := st.next
    let u2 := u1.2.next
    let u3 := u2.2.next
    ((uniform 0.5 0.7 u1.1, uniform 0.8 1.0 u2.1, uniform 0.8 1.0 u3.1), u3.2)
  else if mode = "mono" then
    let u1 := st.next
    let u2 := u1.2.next
    ((base_h, uniform 0.2 0.6 u1.1, uniform 0.5 1.0 u2.1), u2.2)
  else
    let u1 := st.next
    let u2 := u1.2.next
    let u3 := u2.2.next
    ((uniform 0.5 0.7 u1.1, uniform 0.3 1.0 u2.1, uniform 0.5 1.0 u3.1), u3.2)

/-- One iteration of the week-3 `make_palette` loop (part_000 lines 172-182):
hue for pastel/vivid/default is a full-range `random.random()` draw. -/
def paletteDrawsW3 {α : Type} [LinearOrderedField α]
    (mode : String) (base_h : α) (st : RState α) : (α × α × α) × RState α :=
  if mode = "pastel" then
    let u1 := st.next
    let u2 := u1.2.next
    let u3 := u2.2.next
    ((u1.1, uniform 0.15 0.35 u2.1, uniform 0.90 1.00 u3.1), u3.2)
  else if mode = "vivid" then
    let u1 := st.next
    let u2 := u1.2.next
    let u3 := u2.2.next
    ((u1.1, uniform 0.80 1.00 u2.1, uniform 0.80 1.00 u3.1), u3.2)
  else if mode = "mono" then
    let u1 := st.next
    let u2 := u1.2.next
    ((base_h, uniform 0.20 0.60 u1.1, uniform 0.50 1.00 u2.1), u2.2)
  else
    let u1 := st.next
    let u2 := u1.2.next
    let u3 := u2.2.next
    ((u1.1, uniform 0.30 1.00 u2.1, uniform 0.50 1.00 u3.1), u3.2)

/-- The `for _ in range(k)` loop of `make_palette`: draw `(h, s, v)` with the
given per-iteration draw function, convert with `hsv_to_rgb`, append. -/
def make_paletteAux {α : Type} [LinearOrderedField α] [FloorRing α]
    (draws : String → α → RState α → (α × α × α) × RState α)
    (mode : String) (base_h : α) :
    ℕ → RState α → List (PColor α) × RState α
  | 0, st => ([], st)
  | k + 1, st =>
    let d := draws mode base_h st
    let rest := make_paletteAux draws mode base_h k d.2
    (numColor (hsv_to_rgb d.1.1 d.1.2.1 d.1.2.2) :: rest.1, rest.2)

/-- Embedding of the app-final `make_palette` (part_000 lines 46-68): `csv`
mode returns `load_csv_palette()` (which may raise); otherwise `k` procedural
colors are sampled. -/
def make_palette {α : Type} [LinearOrderedField α] [FloorRing α]
    (t : Table α) (k : ℕ) (mode : String) (base_h : α) (st : RState α) :
    Except String (List (PColor α) × RState α) :=
  if mode = "csv" then (load_csv_palette t).map fun pal => (pal, st)
  else .ok (make_paletteAux paletteDraws mode base_h k st)

/-- Embedding of the week-3 `make_palette` (part_000 lines 170-183): always
procedural, no csv branch, cannot fail. -/
def make_palette_w3 {α : Type} [LinearOrderedField α] [FloorRing α]
    (k : ℕ) (mode : String) (base_h : α) (st : RState α) :
    List (PColor α) × RState α :=
  make_paletteAux paletteDrawsW3 mode base_h k st

/-- The CSV text the app-final bootstrap writes (part_000 lines 26-34,
`df_init.to_csv(PALETTE_FILE, index=False)` of the six ocean colors). -/
def PALETTE_CSV_FINAL : String :=
  "name,r,g,b\ndeep_sea,0.05,0.1,0.3\nmid_sea,0.1,0.2,0.5\nshallow_sea,0.2,0.4,0.7\nwave_white,0.9,0.95,1.0\nsea_green,0.1,0.3,0.5\nsun_blue,0.3,0.6,0.9\n"

/-- The `DEFAULT_PALETTE` string of the week-5 variant (part_000 lines
386-407), 20 named purple shades. -/
def DEFAULT_PALETTE : String :=
  "name,r,g,b\namethyst,0.6,0.4,0.8\nbyzantine,0.74,0.2,0.64\neggplant,0.38,0.25,0.32\nelectric_purple,0.75,0.0,1.0\ngrape,0.44,0.18,0.66\nlavender,0.9,0.9,0.98\nlilac,0.78,0.63,0.78\nmagenta,1.0,0.0,1.0\nmajesty,0.42,0.05,0.68\nmauve,0.88,0.69,1.0\nmulberry,0.77,0.26,0.55\norchid,0.85,0.44,0.84\npansy,0.39,0.24,0.59\nthistle,0.72,0.65,0.72\nviolet,0.54,0.17,0.89\nwisteria,0.75,0.61,0.98\naztec_purple,0.54,0.23,1.0\nbaltimore_ravens_purple,0.16,0.01,0.33\nbright_lilac,0.85,0.57,0.94\nfuchsia_purple,0.71,0.33,0.63\n"

/-- Embedding of the app-final palette bootstrap (part_000 lines 25-34):
`if not os.path.exists(PALETTE_FILE): write default`.  The file system is
`none` (absent) or `some contents`. -/
def bootstrap_final (fs : Option String) : Option String :=
  if fs.isSome then fs else some PALETTE_CSV_FINAL

/-- Embedding of the week-5 palette bootstrap (part_000 lines 410-412):
same existence-guarded write of `DEFAULT_PALETTE`. -/
def bootstrap_week5 (fs : Option String) : Option String :=
  if fs.isSome then fs else some DEFAULT_PALETTE

/-- Angle `i` of `np.linspace(0, 2*pi, points, endpoint=False)`: step `2π/points`. -/
noncomputable def blobAngle (points i : ℕ) : ℝ :=
  2 * Real.pi * (i : ℝ) / (points : ℝ)

/-- Angle `i` of `np.linspace(0, 2*pi, points)` with the default inclusive
endpoint (the week-2 `app.py` variant): step `2π/(points-1)`. -/
noncomputable def blobAngleIncl (points i : ℕ) : ℝ :=
  2 * Real.pi * (i : ℝ) / ((points : ℝ) - 1)

/-- The directional weight `0.6 + 0.4*cos(angle)` of the app-final blob
(part_000 line 14). -/
noncomputable def angleWeight (θ : ℝ) : ℝ :=
  0.6 + 0.4 * Real.cos θ

/-- Per-vertex radius `r * (1 + wobble * (u - 0.5) * w)`, where `u` is the
uniform draw and `w` the angle weight (1 for the plain variants). -/
def blobRadius {α : Type} [LinearOrderedField α] (r wobble u w : α) : α :=
  r * (1 + wobble * (u - 0.5) * w)

/-- Embedding of the app-final `blob` (part_000 lines 12-18): wave variant
with the `0.6 + 0.4*cos` angle weight, angles excluding the endpoint. -/
noncomputable def blob (c : ℝ × ℝ) (r : ℝ) (points : ℕ) (wobble : ℝ)
    (u : ℕ → ℝ) : List (ℝ × ℝ) :=
  (List.range points).map fun i =>
    (c.1 + blobRadius r wobble (u i) (angleWeight (blobAngle points i)) *
        Real.cos (blobAngle points i),
     c.2 + blobRadius r wobble (u i) (angleWeight (blobAngle points i)) *
        Real.sin (blobAngle points i))

/-- Embedding of the plain `blob` shared by the week-3/4/5 variants
(part_000 lines 162-168, 279-284, 376-381): constant weight 1, angles
excluding the endpoint. -/
noncomputable def blob_w3 (c : ℝ × ℝ) (r : ℝ) (points : ℕ) (wobble : ℝ)
    (u : ℕ → ℝ) : List (ℝ × ℝ) :=
  (List.range points).map fun i =>
    (c.1 + blobRadius r wobble (u i) 1 * Real.cos (blobAngle points i),
     c.2 + blobRadius r wobble (u i) 1 * Real.sin (blobAngle points i))

/-- Embedding of the week-2 `app.py` blob (app.py lines 11-16) and the week-9
`app2.py` blob (app2.py lines 17-23): plain weight, inclusive endpoint. -/
noncomputable def blob_app (c : ℝ × ℝ) (r : ℝ) (points : ℕ) (wobble : ℝ)
    (u : ℕ → ℝ) : List (ℝ × ℝ) :=
  (List.range points).map fun i =>
    (c.1 + blobRadius r wobble (u i) 1 * Real.cos (blobAngleIncl points i),
     c.2 + blobRadius r wobble (u i) 1 * Real.sin (blobAngleIncl points i))

/-- Euclidean distance in the plane. -/
noncomputable def dist2d (p q : ℝ × ℝ) : ℝ :=
  Real.sqrt ((p.1 - q.1) ^ 2 + (p.2 - q.2) ^ 2)

/-- Count of polygon points above the foam threshold:
`np.sum(y > cy + rr*0.6)` (part_000 lines 106-107). -/
def peakCount {α : Type} [LinearOrderedField α] (ys : List α) (thr : α) : ℕ :=
  (ys.filter fun y => decide (thr < y)).length

/-- The masked point pairs `x[peak_mask], y[peak_mask]`. -/
def maskedPairs {α : Type} [LinearOrderedField α]
    (xs ys : List α) (thr : α) : List (α × α) :=
  (xs.zip ys).filter fun p => decide (thr < p.2)

/-- The jittered foam points (part_000 lines 108-109):
`x + (rand - 0.5)*0.03`, `y + (rand - 0.5)*0.02`. -/
def foamPts {α : Type} [LinearOrderedField α]
    (sel : List (α × α)) (ux uy : ℕ → α) : List (α × α) :=
  (List.range sel.length).map fun j =>
    ((sel.getD j (0, 0)).1 + (ux j - 0.5) * 0.03,
     (sel.getD j (0, 0)).2 + (uy j - 0.5) * 0.02)

/-- Embedding of the foam accent block of `draw_poster` (part_000 lines
105-114).  Guard: `layer_ratio > 0.7 and random.random() > 0.5` (the coin is
drawn only when the ratio test passes), then the foam polygon is drawn only
when `np.sum(peak_mask) > 20`; its color is `palette[3]` when the palette has
at least 4 entries, else translucent white.  Returns the optional foam data
together with the advanced `random` and `np.random` states. -/
def layerFoam {α : Type} [LinearOrderedField α]
    (ratio : α) (palLen : ℕ) (pal3 : PColor α) (xs ys : List α)
    (cy rr : α) (pySt npSt : RState α) :
    Option (List (α × α) × PColor α) × RState α × RState α :=
  if 0.7 < ratio then
    let p := pySt.next
    if 0.5 < p.1 then
      if 20 < peakCount ys (cy + rr * 0.6) then
        let sel := maskedPairs xs ys (cy + rr * 0.6)
        let ux := randN npSt sel.length
        let uy := randN ux.2 sel.length
        (some (foamPts sel ux.1 uy.1,
               if 4 ≤ palLen then pal3 else numColor (1, 1, 1)),
         p.2, uy.2)
      else (none, p.2, npSt)
    else (none, p.2, npSt)
  else (none, pySt, npSt)

/-- Python true division of the two ints `layer / (n_layers - 1)`:
raises `ZeroDivisionError` on a zero denominator. -/
noncomputable def pydivNat (a b : ℕ) : Except String ℝ :=
  if b = 0 then .error "ZeroDivisionError" else .ok ((a : ℝ) / (b : ℝ))

/-- One layer of the app-final `draw_poster` output: the polygon, the selected
color, the fill alpha, and the optional foam accent. -/
structure PLayer where
  poly : List (ℝ × ℝ)
  color : PColor ℝ
  alpha : ℝ
  foam : Option (List (ℝ × ℝ) × PColor ℝ)

/-- One iteration of the `draw_poster` layer loop (part_000 lines 85-114), in
source order: `layer_ratio = layer/(n_layers-1)` (which can raise), the layer
center/radius from the ratio and one `random.random()` draw, the wave blob
(200 `np.random` draws), the color (csv threshold lookup when the csv palette
has at least 4 entries, else `random.choice`), the alpha, then the foam
block. -/
noncomputable def layerStep (pal : List (PColor ℝ)) (mode : String)
    (wobble : ℝ) (n i : ℕ) (pySt npSt : RState ℝ) :
    Except String (PLayer × RState ℝ × RState ℝ) :=
  match pydivNat i (n - 1) with
  | .error e => .error e
  | .ok ratio =>
    let p1 := pySt.next
    let cx := 0.5 + (p1.1 - 0.5) * 0.4 * (1 - ratio)
    let cy := 0.2 + ratio * 0.6
    let rr := 0.4 - ratio * 0.25
    let nb := randN npSt 200
    let pts := blob (cx, cy) rr 200 (wobble * (0.5 + ratio)) nb.1
    let cres : PColor ℝ × RState ℝ :=
      if mode = "csv" ∧ 4 ≤ pal.length then
        (if ratio < 0.3 then pal.getD 0 (numColor (0, 0, 0))
         else if ratio < 0.6 then pal.getD 1 (numColor (0, 0, 0))
         else pal.getD 2 (numColor (0, 0, 0)), p1.2)
      else
        let p2 := p1.2.next
        (pychoice pal (numColor (0, 0, 0)) p2.1, p2.2)
    let fres := layerFoam ratio pal.length (pal.getD 3 (numColor (0, 0, 0)))
      (pts.map Prod.fst) (pts.map Prod.snd) cy rr cres.2 nb.2
    .ok (⟨pts, cres.1, 0.5 + ratio * 0.3, fres.1⟩, fres.2.1, fres.2.2)

/-- The `for layer in range(n_layers)` loop of `draw_poster`, iterated over
the list of layer indices; a raised exception aborts the whole loop. -/
noncomputable def drawLayers (pal : List (PColor ℝ)) (mode : String)
    (wobble : ℝ) (n : ℕ) :
    List ℕ → RState ℝ → RState ℝ → Except String (List PLayer)
  | [], _, _ => .ok []
  | i :: rest, pySt, npSt =>
    match layerStep pal mode wobble n i pySt npSt with
    | .error e => .error e
    | .ok res =>
      match drawLayers pal mode wobble n rest res.2.1 res.2.2 with
      | .error e => .error e
      | .ok ls => .ok (res.1 :: ls)

/-- Embedding of the app-final `draw_poster` (part_000 lines 73-119): seed
both random modules from `seed` (discarding the ambient states `ambPy`,
`ambNp`), build the palette (`make_palette(6, mode)`), then generate the
layers.  The result is the composed layer data. -/
noncomputable def draw_poster (pyAlg npAlg : ℕ → ℕ → ℝ) (t : Table ℝ)
    (n_layers : ℕ) (wobble : ℝ) (palette_mode : String) (seed : ℕ)
    (ambPy ambNp : RState ℝ) : Except String (List PLayer) :=
  let _ := ambPy
  let _ := ambNp
  match make_palette t 6 palette_mode 0.6 (seedState pyAlg seed) with
  | .error e => .error e
  | .ok pr =>
    drawLayers pr.1 palette_mode wobble n_layers (List.range n_layers)
      pr.2 (seedState npAlg seed)

/-- A week-3 style preset: resolved `(n_layers, wobble_range, alpha_range,
palette_mode)` (part_000 lines 185-189). -/
structure Preset where
  n_layers : ℕ
  wobble_range : ℝ × ℝ
  alpha_range : ℝ × ℝ
  palette_mode : String

/-- The `STYLE_PRESETS` dict of the week-3 variant. -/
noncomputable def STYLE_PRESETS (s : String) : Option Preset :=
  if s = "Minimal" then some ⟨5, (0.02, 0.08), (0.30, 0.50), "pastel"⟩
  else if s = "Vivid" then some ⟨12, (0.05, 0.20), (0.35, 0.70), "vivid"⟩
  else if s = "NoiseTouch" then some ⟨14, (0.12, 0.30), (0.25, 0.55), "mono"⟩
  else none

/-- One layer of the week-3 `generate_poster` output. -/
structure GLayer where
  poly : List (ℝ × ℝ)
  color : PColor ℝ
  alpha : ℝ

/-- The week-3 `generate_poster` layer loop (part_000 lines 215-222), in
source order: `cx, cy = random.random(), random.random()`, radius and wobble
uniform in their ranges, the plain blob (200 `np.random` draws),
`random.choice(palette)`, alpha uniform in its range. -/
noncomputable def genLayers (pal : List (PColor ℝ))
    (radius_range wobble_range alpha_range : ℝ × ℝ) :
    ℕ → RState ℝ → RState ℝ → List GLayer
  | 0, _, _ => []
  | k + 1, pySt, npSt =>
    let u1 := pySt.next
    let u2 := u1.2.next
    let u3 := u2.2.next
    let u4 := u3.2.next
    let nb := randN npSt 200
    let pts := blob_w3 (u1.1, u2.1) (uniform radius_range.1 radius_range.2 u3.1)
      200 (uniform wobble_range.1 wobble_range.2 u4.1) nb.1
    let u5 := u4.2.next
    let u6 := u5.2.next
    ⟨pts, pychoice pal (numColor (0, 0, 0)) u5.1,
      uniform alpha_range.1 alpha_range.2 u6.1⟩ ::
      genLayers pal radius_range wobble_range alpha_range k u6.2 nb.2

/-- Embedding of the week-3 `generate_poster` (part_000 lines 191-230):
resolve the optional style preset, seed both random modules only when `seed`
is not `None` (otherwise the ambient module states are used), build the
palette with the week-3 `make_palette`, then generate the layers. -/
noncomputable def generate_poster (pyAlg npAlg : ℕ → ℕ → ℝ)
    (style : Option String) (seed : Option ℕ) (n_layers : ℕ)
    (radius_range wobble_range alpha_range : ℝ × ℝ) (palette_mode : String)
    (ambPy ambNp : RState ℝ) : List GLayer :=
  let rp : ℕ × (ℝ × ℝ) × (ℝ × ℝ) × String :=
    match style.bind STYLE_PRESETS with
    | some p => (p.n_layers, p.wobble_range, p.alpha_range, p.palette_mode)
    | none => (n_layers, wobble_range, alpha_range, palette_mode)
  let sts : RState ℝ × RState ℝ :=
    match seed with
    | some s => (seedState pyAlg s, seedState npAlg s)
    | none => (ambPy, ambNp)
  let pr := make_palette_w3 6 rp.2.2.2 0.6 sts.1
  genLayers pr.1 radius_range rp.2.1 rp.2.2.1 rp.1 pr.2 sts.2

/-- The week-4 main-shape fill alpha (part_000 line 321):
`alpha = min(0.5 + depth * 0.08, 1.0)`. -/
def alpha3d {α : Type} [LinearOrderedField α] (depth : ℕ) : α :=
  min (0.5 + (depth : α) * 0.08) 1.0

/-- The week-4 shadow alpha (part_000 line 300):
`shadow_alpha = max(0.12 - depth * 0.02, 0)`. -/
def shadowAlpha3d {α : Type} [LinearOrderedField α] (depth : ℕ) : α :=
  max (0.12 - (depth : α) * 0.02) 0

/-- One layer of the week-4 `generate_3d_poster` output: the shadow polygon
and its alpha, the main polygon, its color and its fill alpha. -/
structure Layer3D where
  shadow : List (ℝ × ℝ)
  shadow_alpha : ℝ
  poly : List (ℝ × ℝ)
  color : ℝ × ℝ × ℝ
  alpha : ℝ

/-- The `for depth in range(n_layers)` loop of `generate_3d_poster` (part_000
lines 293-322): position and radius draws, the plain blob, the scaled-offset
shadow copy, the warm/cool color split on `depth < n_layers/2` (three
`random.uniform` draws either way, channels clipped above by 1), and the
depth-indexed fill alpha `alpha3d`. -/
noncomputable def gen3dLayers (pyAlg npAlg : ℕ → ℕ → ℝ) (n : ℕ) :
    List ℕ → RState ℝ → RState ℝ → List Layer3D
  | [], _, _ => []
  | depth :: rest, pySt, npSt =>
    let u1 := pySt.next
    let u2 := u1.2.next
    let u3 := u2.2.next
    let cx := u1.1
    let cy := u2.1
    let rr := uniform 0.15 0.45 u3.1
    let nb := randN npSt 200
    let pts := blob_w3 (cx, cy) rr 200 0.12 nb.1
    let sscale := 1.05 + (depth : ℝ) * 0.02
    let shadow := pts.map fun p =>
      (cx + (p.1 - cx) * sscale + 0.015, cy + (p.2 - cy) * sscale - 0.015)
    let v1 := u3.2.next
    let v2 := v1.2.next
    let v3 := v2.2.next
    let col : ℝ × ℝ × ℝ :=
      if 2 * depth < n then
        (min (0.8 + uniform (-0.2) 0.1 v1.1) 1.0,
         min (0.4 + uniform (-0.1) 0.1 v2.1) 1.0,
         min (0.2 + uniform 0 0.1 v3.1) 1.0)
      else
        (min (0.2 + uniform 0 0.1 v1.1) 1.0,
         min (0.4 + uniform (-0.1) 0.1 v2.1) 1.0,
         min (0.8 + uniform (-0.2) 0.1 v3.1) 1.0)
    ⟨shadow, shadowAlpha3d depth, pts, col, alpha3d depth⟩ ::
      gen3dLayers pyAlg npAlg n rest v3.2 nb.2

/-- Embedding of the week-4 `generate_3d_poster` (part_000 lines 286-331):
seed both random modules, then generate the depth-indexed layers. -/
noncomputable def generate_3d_poster (pyAlg npAlg : ℕ → ℕ → ℝ)
    (n_layers : ℕ) (seed : ℕ) : List Layer3D :=
  gen3dLayers pyAlg npAlg n_layers (List.range n_layers)
    (seedState pyAlg seed) (seedState npAlg seed)

/-- A constant pseudo-random algorithm, used to instantiate theorems at
concrete inputs. -/
noncomputable def constAlg : ℕ → ℕ → ℝ := fun _ _ => 0.5

/-- A parsed palette table with the standard header and no data rows. -/
def tEmpty : Table ℝ := ⟨["name", "r", "g", "b"], []⟩

/-- A concrete ambient random-module state. -/
noncomputable def rst0 : RState ℝ := ⟨fun _ => 0.5, 0⟩

/-- A well-formed header but a `b` channel out of `[0, 1]` (value `1.5`). -/
def tMalformed : Table ℚ :=
  ⟨["name", "r", "g", "b"],
   [[Sum.inr "bad_row", Sum.inl 0.1, Sum.inl 0.2, Sum.inl 1.5]]⟩

/-- A well-formed header but a non-numeric cell in the `r` column. -/
def tNonNumeric : Table ℚ :=
  ⟨["name", "r", "g", "b"],
   [[Sum.inr "x", Sum.inr "oops", Sum.inl 0.2, Sum.inl 0.3]]⟩

/-- A table with the required channel columns missing and no data rows. -/
def tHeaderless : Table ℚ := ⟨["name"], []⟩

/-! Helper lemmas. -/

/-- Range of `random.uniform(a, b)` when the underlying draw is in `[0, 1]`. -/
lemma uniform_mem {α : Type} [LinearOrderedField α] (a b u : α)
    (hab : a ≤ b) (h0 : 0 ≤ u) (h1 : u ≤ 1) :
    a ≤ uniform a b u ∧ uniform a b u ≤ b := by
  unfold uniform
  constructor <;> nlinarith

/-- For a nonnegative hue the matplotlib fractional part lies in `[0, 1)`. -/
lemma hsvF_mem {α : Type} [LinearOrderedField α] [FloorRing α] (h : α)
    (hh : 0 ≤ h) : 0 ≤ hsvF h ∧ hsvF h < 1 := by
  have h6 : (0 : α) ≤ h * 6 := by positivity
  have htr : pytrunc (h * 6) = ⌊h * 6⌋ := by
    unfold pytrunc
    rw [if_neg (not_lt.mpr h6)]
  unfold hsvF
  rw [htr]
  constructor
  · have := Int.floor_le (h * 6)
    linarith
  · have := Int.lt_floor_add_one (h * 6)
    push_cast at this ⊢
    linarith

/-- All channels produced by `hsv_to_rgb` lie in `[0, 1]` when the hue is
nonnegative and saturation/value are in `[0, 1]`. -/
lemma hsv_to_rgb_mem {α : Type} [LinearOrderedField α] [FloorRing α]
    (h s v : α) (hh : 0 ≤ h) (hs0 : 0 ≤ s) (hs1 : s ≤ 1)
    (hv0 : 0 ≤ v) (hv1 : v ≤ 1) :
    0 ≤ (hsv_to_rgb h s v).1 ∧ (hsv_to_rgb h s v).1 ≤ 1 ∧
    0 ≤ (hsv_to_rgb h s v).2.1 ∧ (hsv_to_rgb h s v).2.1 ≤ 1 ∧
    0 ≤ (hsv_to_rgb h s v).2.2 ∧ (hsv_to_rgb h s v).2.2 ≤ 1 := by
  obtain ⟨hf0, hf1⟩ := hsvF_mem h hh
  have hsf1 : s * hsvF h ≤ 1 := by nlinarith
  have hsg1 : s * (1 - hsvF h) ≤ 1 := by nlinarith
  have hp0 : 0 ≤ hsvP s v := by
    unfold hsvP
    exact mul_nonneg hv0 (by linarith)
  have hp1 : hsvP s v ≤ 1 := by
    unfold hsvP
    nlinarith [mul_nonneg (by linarith : (0 : α) ≤ 1 - v) (by linarith : (0 : α) ≤ 1 - s)]
  have hq0 : 0 ≤ hsvQ h s v := by
    unfold hsvQ
    exact mul_nonneg hv0 (by linarith)
  have hq1 : hsvQ h s v ≤ 1 := by
    unfold hsvQ
    nlinarith [mul_nonneg (by linarith : (0 : α) ≤ 1 - v)
      (by nlinarith : (0 : α) ≤ 1 - s * hsvF h)]
  have ht0 : 0 ≤ hsvT h s v := by
    unfold hsvT
    exact mul_nonneg hv0 (by nlinarith)
  have ht1 : hsvT h s v ≤ 1 := by
    unfold hsvT
    nlinarith [mul_nonneg (by linarith : (0 : α) ≤ 1 - v)
      (by nlinarith : (0 : α) ≤ 1 - s * (1 - hsvF h))]
  unfold hsv_to_rgb
  split_ifs
  · exact ⟨hv0, hv1, ht0, ht1, hp0, hp1⟩
  · exact ⟨hq0, hq1, hv0, hv1, hp0, hp1⟩
  · exact ⟨hp0, hp1, hv0, hv1, ht0, ht1⟩
  · exact ⟨hp0, hp1, hq0, hq1, hv0, hv1⟩
  · exact ⟨ht0, ht1, hp0, hp1, hv0, hv1⟩
  · exact ⟨hv0, hv1, hp0, hp1, hq0, hq1⟩

/-- The app-final per-iteration palette draws: hue nonnegative,
saturation and value in `[0, 1]`, and the stream is unchanged. -/
lemma paletteDraws_spec {α : Type} [LinearOrderedField α]
    (mode : String) (b : α) (st : RState α)
    (hu : ∀ n, 0 ≤ st.stream n ∧ st.stream n ≤ 1)
    (hb0 : 0 ≤ b) (hb1 : b ≤ 1) :
    (0 ≤ (paletteDraws mode b st).1.1 ∧
     0 ≤ (paletteDraws mode b st).1.2.1 ∧ (paletteDraws mode b st).1.2.1 ≤ 1 ∧
     0 ≤ (paletteDraws mode b st).1.2.2 ∧ (paletteDraws mode b st).1.2.2 ≤ 1) ∧
    (paletteDraws mode b st).2.stream = st.stream := by
  unfold paletteDraws RState.next
  split_ifs
  · obtain ⟨a1, a2⟩ := uniform_mem (α := α) 0.5 0.7 (st.stream st.pos)
      (by norm_num) (hu _).1 (hu _).2
    obtain ⟨b1, b2⟩ := uniform_mem (α := α) 0.15 0.35 (st.stream (st.pos + 1))
      (by norm_num) (hu _).1 (hu _).2
    obtain ⟨c1, c2⟩ := uniform_mem (α := α) 0.8 1.0 (st.stream (st.pos + 1 + 1))
      (by norm_num) (hu _).1 (hu _).2
    exact ⟨⟨by linarith, by linarith, by linarith, by linarith, by linarith⟩, rfl⟩
  · obtain ⟨a1, a2⟩ := uniform_mem (α := α) 0.5 0.7 (st.stream st.pos)
      (by norm_num) (hu _).1 (hu _).2
    obtain ⟨b1, b2⟩ := uniform_mem (α := α) 0.8 1.0 (st.stream (st.pos + 1))
      (by norm_num) (hu _).1 (hu _).2
    obtain ⟨c1, c2⟩ := uniform_mem (α := α) 0.8 1.0 (st.stream (st.pos + 1 + 1))
      (by norm_num) (hu _).1 (hu _).2
    exact ⟨⟨by linarith, by linarith, by linarith, by linarith, by linarith⟩, rfl⟩
  · obtain ⟨b1, b2⟩ := uniform_mem (α := α) 0.2 0.6 (st.stream st.pos)
      (by norm_num) (hu _).1 (hu _).2
    obtain ⟨c1, c2⟩ := uniform_mem (α := α) 0.5 1.0 (st.stream (st.pos + 1))
      (by norm_num) (hu _).1 (hu _).2
    exact ⟨⟨hb0, by linarith, by linarith, by linarith, by linarith⟩, rfl⟩
  · obtain ⟨a1, a2⟩ := uniform_mem (α := α) 0.5 0.7 (st.stream st.pos)
      (by norm_num) (hu _).1 (hu _).2
    obtain ⟨b1, b2⟩ := uniform_mem (α := α) 0.3 1.0 (st.stream (st.pos + 1))
      (by norm_num) (hu _).1 (hu _).2
    obtain ⟨c1, c2⟩ := uniform_mem (α := α) 0.5 1.0 (st.stream (st.pos + 1 + 1))
      (by norm_num) (hu _).1 (hu _).2
    exact ⟨⟨by linarith, by linarith, by linarith, by linarith, by linarith⟩, rfl⟩

/-- The week-3 per-iteration palette draws satisfy the same bounds. -/
lemma paletteDrawsW3_spec {α : Type} [LinearOrderedField α]
    (mode : String) (b : α) (st : RState α)
    (hu : ∀ n, 0 ≤ st.stream n ∧ st.stream n ≤ 1)
    (hb0 : 0 ≤ b) (hb1 : b ≤ 1) :
    (0 ≤ (paletteDrawsW3 mode b st).1.1 ∧
     0 ≤ (paletteDrawsW3 mode b st).1.2.1 ∧ (paletteDrawsW3 mode b st).1.2.1 ≤ 1 ∧
     0 ≤ (paletteDrawsW3 mode b st).1.2.2 ∧ (paletteDrawsW3 mode b st).1.2.2 ≤ 1) ∧
    (paletteDrawsW3 mode b st).2.stream = st.stream := by
  unfold paletteDrawsW3 RState.next
  split_ifs
  · obtain ⟨b1, b2⟩ := uniform_mem (α := α) 0.15 0.35 (st.stream (st.pos + 1))
      (by norm_num) (hu _).1 (hu _).2
    obtain ⟨c1, c2⟩ := uniform_mem (α := α) 0.90 1.00 (st.stream (st.pos + 1 + 1))
      (by norm_num) (hu _).1 (hu _).2
    exact ⟨⟨(hu _).1, by linarith, by linarith, by linarith, by linarith⟩, rfl⟩
  · obtain ⟨b1, b2⟩ := uniform_mem (α := α) 0.80 1.00 (st.stream (st.pos + 1))
      (by norm_num) (hu _).1 (hu _).2
    obtain ⟨c1, c2⟩ := uniform_mem (α := α) 0.80 1.00 (st.stream (st.pos + 1 + 1))
      (by norm_num) (hu _).1 (hu _).2
    exact ⟨⟨(hu _).1, by linarith, by linarith, by linarith, by linarith⟩, rfl⟩
  · obtain ⟨b1, b2⟩ := uniform_mem (α := α) 0.20 0.60 (st.stream st.pos)
      (by norm_num) (hu _).1 (hu _).2
    obtain ⟨c1, c2⟩ := uniform_mem (α := α) 0.50 1.00 (st.stream (st.pos + 1))
      (by norm_num) (hu _).1 (hu _).2
    exact ⟨⟨hb0, by linarith, by linarith, by linarith, by linarith⟩, rfl⟩
  · obtain ⟨b1, b2⟩ := uniform_mem (α := α) 0.30 1.00 (st.stream (st.pos + 1))
      (by norm_num) (hu _).1 (hu _).2
    obtain ⟨c1, c2⟩ := uniform_mem (α := α) 0.50 1.00 (st.stream (st.pos + 1 + 1))
      (by norm_num) (hu _).1 (hu _).2
    exact ⟨⟨(hu _).1, by linarith, by linarith, by linarith, by linarith⟩, rfl⟩

/-- The palette loop returns `k` colors, all numeric with channels in
`[0, 1]`, for any per-iteration draw function satisfying the bounds. -/
lemma make_paletteAux_spec {α : Type} [LinearOrderedField α] [FloorRing α]
    (draws : String → α → RState α → (α × α × α) × RState α)
    (mode : String) (b : α) (k : ℕ) (st : RState α)
    (hd : ∀ s2 : RState α, (∀ n, 0 ≤ s2.stream n ∧ s2.stream n ≤ 1) →
      (0 ≤ (draws mode b s2).1.1 ∧
       0 ≤ (draws mode b s2).1.2.1 ∧ (draws mode b s2).1.2.1 ≤ 1 ∧
       0 ≤ (draws mode b s2).1.2.2 ∧ (draws mode b s2).1.2.2 ≤ 1) ∧
      (draws mode b s2).2.stream = s2.stream)
    (hu : ∀ n, 0 ≤ st.stream n ∧ st.stream n ≤ 1) :
    (make_paletteAux draws mode b k st).1.length = k ∧
    ∀ c ∈ (make_paletteAux draws mode b k st).1, ∃ x y z,
      c = (Sum.inl x, Sum.inl y, Sum.inl z) ∧
      0 ≤ x ∧ x ≤ 1 ∧ 0 ≤ y ∧ y ≤ 1 ∧ 0 ≤ z ∧ z ≤ 1 := by
  induction k generalizing st with
  | zero => simp [make_paletteAux]
  | succ k ih =>
    obtain ⟨⟨hh, hs0, hs1, hv0, hv1⟩, hstream⟩ := hd st hu
    have hu2 : ∀ n, 0 ≤ (draws mode b st).2.stream n ∧
        (draws mode b st).2.stream n ≤ 1 := by
      rw [hstream]
      exact hu
    obtain ⟨ihlen, ihmem⟩ := ih ((draws mode b st).2) hu2
    constructor
    · simp [make_paletteAux, ihlen]
    · intro c hc
      simp only [make_paletteAux, List.mem_cons] at hc
      rcases hc with rfl | hc
      · obtain ⟨r1, r2, g1, g2, bb1, bb2⟩ :=
          hsv_to_rgb_mem (draws mode b st).1.1 (draws mode b st).1.2.1
            (draws mode b st).1.2.2 hh hs0 hs1 hv0 hv1
        exact ⟨_, _, _, rfl, r1, r2, g1, g2, bb1, bb2⟩
      · exact ihmem c hc

/-- Distance from the blob center to a generated point is the absolute value
of the per-vertex radius. -/
lemma dist2d_polar (c : ℝ × ℝ) (q θ : ℝ) :
    dist2d (c.1 + q * Real.cos θ, c.2 + q * Real.sin θ) c = |q| := by
  show Real.sqrt ((c.1 + q * Real.cos θ - c.1) ^ 2 +
    (c.2 + q * Real.sin θ - c.2) ^ 2) = |q|
  have h1 : (c.1 + q * Real.cos θ - c.1) ^ 2 + (c.2 + q * Real.sin θ - c.2) ^ 2
      = q ^ 2 * (Real.cos θ ^ 2 + Real.sin θ ^ 2) := by ring
  rw [h1, Real.cos_sq_add_sin_sq, mul_one, Real.sqrt_sq_eq_abs]

/-- The directional angle weight stays within `[-1, 1]` (indeed `[0.2, 1]`). -/
lemma angleWeight_mem (θ : ℝ) : -1 ≤ angleWeight θ ∧ angleWeight θ ≤ 1 := by
  unfold angleWeight
  have h1 := Real.neg_one_le_cos θ
  have h2 := Real.cos_le_one θ
  constructor <;> nlinarith

/-- The per-vertex radius stays within the wobble band
`[r(1 - wobble/2), r(1 + wobble/2)]` and is nonnegative. -/
lemma blobRadius_band {α : Type} [LinearOrderedField α] (r wobble u w : α)
    (hr : 0 < r) (hw0 : 0 ≤ wobble) (hw2 : wobble ≤ 2)
    (hu0 : 0 ≤ u) (hu1 : u ≤ 1) (hwf0 : -1 ≤ w) (hwf1 : w ≤ 1) :
    r * (1 - wobble / 2) ≤ blobRadius r wobble u w ∧
    blobRadius r wobble u w ≤ r * (1 + wobble / 2) ∧
    0 ≤ blobRadius r wobble u w := by
  unfold blobRadius
  rw [show (0.5 : α) = 1 / 2 by norm_num]
  have hc1 : (0 : α) ≤ (1 / 2 - (u - 1 / 2)) * (1 - w) :=
    mul_nonneg (by linarith) (by linarith)
  have hc2 : (0 : α) ≤ (1 / 2 - (u - 1 / 2)) * (1 + w) :=
    mul_nonneg (by linarith) (by linarith)
  have hc3 : (0 : α) ≤ ((u - 1 / 2) + 1 / 2) * (1 - w) :=
    mul_nonneg (by linarith) (by linarith)
  have hc4 : (0 : α) ≤ ((u - 1 / 2) + 1 / 2) * (1 + w) :=
    mul_nonneg (by linarith) (by linarith)
  have hd1 : -(1 / 2 : α) ≤ (u - 1 / 2) * w := by nlinarith [hc1, hc4]
  have hd2 : ((u - 1 / 2) * w : α) ≤ 1 / 2 := by nlinarith [hc2, hc3]
  have he1 := mul_le_mul_of_nonneg_left hd1 hw0
  have he2 := mul_le_mul_of_nonneg_left hd2 hw0
  rw [mul_neg, ← mul_assoc] at he1
  rw [← mul_assoc] at he2
  refine ⟨?_, ?_, ?_⟩
  · exact mul_le_mul_of_nonneg_left (by linarith) hr.le
  · exact mul_le_mul_of_nonneg_left (by linarith) hr.le
  · exact mul_nonneg hr.le (by linarith)

/-- A column name is absent from the header iff its index lookup fails. -/
lemma colIdx_eq_none_iff (cols : List String) (nm : String) :
    colIdx cols nm = none ↔ nm ∉ cols := by
  induction cols with
  | nil => simp [colIdx]
  | cons c cs ih =>
    by_cases hc : c = nm
    · simp [colIdx, hc]
    · simp only [colIdx, if_neg hc, Option.map_eq_none', ih, List.mem_cons]
      constructor
      · intro h hin
        rcases hin with h1 | h2
        · exact hc h1.symm
        · exact h h2
      · intro h h2
        exact h (Or.inr h2)

/-! Claim theorems. -/

/-- C1: for every fixed input (layer count, wobble or ranges, palette mode or
style, seed), two independent calls to `draw_poster` — and to
`generate_poster` with a non-None seed — produce identical layer data
(polygon vertices, color tuples, alphas), whatever the ambient states of the
two random modules were before the call: both composers reseed
unconditionally from the given seed. -/
theorem compose_deterministic (pyAlg npAlg : ℕ → ℕ → ℝ) (t : Table ℝ)
    (n_layers : ℕ) (wobble : ℝ) (palette_mode : String) (seed : ℕ)
    (style : Option String) (n2 : ℕ) (rrng wrng arng : ℝ × ℝ) (pm : String)
    (a1 a2 b1 b2 c1 c2 d1 d2 : RState ℝ) :
    draw_poster pyAlg npAlg t n_layers wobble palette_mode seed a1 a2 =
      draw_poster pyAlg npAlg t n_layers wobble palette_mode seed b1 b2 ∧
    generate_poster pyAlg npAlg style (some seed) n2 rrng wrng arng pm c1 c2 =
      generate_poster pyAlg npAlg style (some seed) n2 rrng wrng arng pm d1 d2 :=
  ⟨rfl, rfl⟩

/-- C6: running the palette bootstrap when the palette file already exists
leaves the file byte-identical, for both bootstrap blocks in the source, and
a second bootstrap never changes the result of a first. -/
theorem palette_bootstrap_idempotent (fs : Option String) (c : String)
    (h : fs = some c) :
    bootstrap_final fs = fs ∧ bootstrap_week5 fs = fs ∧
    bootstrap_final (bootstrap_final fs) = bootstrap_final fs ∧
    bootstrap_week5 (bootstrap_week5 fs) = bootstrap_week5 fs := by
  subst h
  exact ⟨rfl, rfl, rfl, rfl⟩

/-- Witness for C6 at a concrete existing file. -/
theorem palette_bootstrap_idempotent_witness :
    bootstrap_final (some "x") = some "x" ∧
    bootstrap_week5 (some "x") = some "x" ∧
    bootstrap_final (bootstrap_final (some "x")) = bootstrap_final (some "x") ∧
    bootstrap_week5 (bootstrap_week5 (some "x")) = bootstrap_week5 (some "x") :=
  palette_bootstrap_idempotent (some "x") "x" rfl

/-- C9 counterexample: the week-4 fill alpha is `min(0.5 + depth*0.08, 1.0)`,
which grows with the depth index — at depths 0 and 1 the deeper layer is
strictly more opaque, refuting "alpha at d2 is at most alpha at d1". -/
theorem alpha3d_depth_increases_cex :
    ¬ ((alpha3d 1 : ℚ) ≤ alpha3d 0) := by
  norm_num [alpha3d]

/-- C9 amended: the main-shape fill alpha of `generate_3d_poster` is
non-decreasing in the depth index (deeper-indexed layers are drawn at least
as opaque, capped at 1.0), the opposite direction of the claim. -/
theorem alpha3d_monotone_nondecreasing {α : Type} [LinearOrderedField α]
    (d1 d2 : ℕ) (h : d1 ≤ d2) : (alpha3d d1 : α) ≤ alpha3d d2 := by
  unfold alpha3d
  have hc : (d1 : α) ≤ (d2 : α) := Nat.cast_le.mpr h
  have hm := mul_le_mul_of_nonneg_right hc (by norm_num : (0 : α) ≤ 0.08)
  exact min_le_min (by linarith) le_rfl

/-- Witness for the amended C9 at depths 0 and 1. -/
theorem alpha3d_monotone_nondecreasing_witness :
    (alpha3d 0 : ℚ) ≤ alpha3d 1 :=
  alpha3d_monotone_nondecreasing 0 1 (by norm_num)

/-- C3 counterexample: `blob` called with `point_count = 2` raises nothing
and returns a degenerate 2-point sequence, in both the app-final variant and
the week-2/9 variant — no ShapeError/ConfigurationError exists in the code. -/
theorem blob_point_count_two_silent_cex :
    (blob (0.5, 0.5) 0.3 2 0.15 (fun _ => 0.5)).length = 2 ∧
    (blob_app (0.5, 0.5) 0.3 2 0.15 (fun _ => 0.5)).length = 2 := by
  constructor <;> simp [blob, blob_app]

/-- C3 amended: the blob generators perform no validation of `point_count`
at all — for every input they totally return exactly `point_count` points
(degenerate sequences included), never raising. -/
theorem blob_no_point_count_validation (c : ℝ × ℝ) (r : ℝ) (points : ℕ)
    (wobble : ℝ) (u : ℕ → ℝ) :
    (blob c r points wobble u).length = points ∧
    (blob_w3 c r points wobble u).length = points ∧
    (blob_app c r points wobble u).length = points := by
  refine ⟨?_, ?_, ?_⟩ <;> simp [blob, blob_w3, blob_app]

/-- C2 counterexample: `draw_poster` with exactly one layer evaluates
`layer / (n_layers - 1)` with a zero denominator and aborts with
`ZeroDivisionError` — there is no special case for N = 1. -/
theorem draw_poster_one_layer_raises_cex :
    draw_poster constAlg constAlg tEmpty 1 0.15 "pastel" 0 rst0 rst0 =
      .error "ZeroDivisionError" := by
  rfl

/-- C2 amended: whenever the palette step succeeds (any non-malformed
configuration), composing with `n_layers = 1` always fails with
`ZeroDivisionError` instead of succeeding: the composer evaluates
`i/(N-1)` with `N-1 = 0` and does not special-case N = 1. -/
theorem draw_poster_one_layer_zero_division (pyAlg npAlg : ℕ → ℕ → ℝ)
    (t : Table ℝ) (wobble : ℝ) (mode : String) (seed : ℕ) (a b : RState ℝ)
    (h : ∃ pr, make_palette t 6 mode 0.6 (seedState pyAlg seed) = .ok pr) :
    draw_poster pyAlg npAlg t 1 wobble mode seed a b =
      .error "ZeroDivisionError" := by
  obtain ⟨pr, hp⟩ := h
  simp only [draw_poster]
  rw [hp]
  show drawLayers pr.1 mode wobble 1 (List.range 1) pr.2 (seedState npAlg seed) =
    Except.error "ZeroDivisionError"
  have hr1 : List.range 1 = [0] := rfl
  rw [hr1]
  simp [drawLayers, layerStep, pydivNat]

/-- Witness for the amended C2 at a concrete configuration. -/
theorem draw_poster_one_layer_zero_division_witness :
    draw_poster constAlg constAlg tEmpty 1 0.3 "vivid" 7 rst0 rst0 =
      .error "ZeroDivisionError" :=
  draw_poster_one_layer_zero_division constAlg constAlg tEmpty 0.3 "vivid" 7
    rst0 rst0
    ⟨make_paletteAux paletteDraws "vivid" (0.6 : ℝ) 6 (seedState constAlg 7), rfl⟩

/-- C8 counterexample: a layer with ratio 1 (> 0.7) and a successful
coin-flip whose filtered point subset has exactly 20 points skips the foam
shape (the code requires strictly more than 20), refuting "whenever the
subset contains 20 or more points the foam shape is drawn". -/
theorem foam_twenty_points_skipped_cex :
    (0.7 : ℚ) < 1 ∧ (0.5 : ℚ) < 1 ∧
    peakCount (List.replicate 20 (1 : ℚ) ++ [0]) (0 + 0 * 0.6) = 20 ∧
    (layerFoam (1 : ℚ) 6 (numColor (1, 1, 1)) (List.replicate 21 (0 : ℚ))
        (List.replicate 20 (1 : ℚ) ++ [0]) 0 0
        ⟨fun _ => 1, 0⟩ ⟨fun _ => 1, 0⟩).1 = none := by
  refine ⟨by norm_num, by norm_num, ?_, ?_⟩
  · norm_num [peakCount, List.replicate_succ, List.filter_cons]
  · norm_num [layerFoam, RState.next, peakCount, List.replicate_succ,
      List.filter_cons]

/-- C8 amended: for a layer whose ratio exceeds 0.7 and whose coin-flip draw
exceeds 0.5, the foam shape is produced exactly when the filtered subset has
strictly more than 20 points (i.e. at least 21); with 20 or fewer it is
skipped. -/
theorem foam_drawn_iff_over_twenty {α : Type} [LinearOrderedField α]
    (ratio : α) (palLen : ℕ) (pal3 : PColor α) (xs ys : List α) (cy rr : α)
    (pySt npSt : RState α)
    (hratio : 0.7 < ratio) (hcoin : 0.5 < pySt.stream pySt.pos) :
    (layerFoam ratio palLen pal3 xs ys cy rr pySt npSt).1.isSome = true ↔
      20 < peakCount ys (cy + rr * 0.6) := by
  simp only [layerFoam, RState.next]
  rw [if_pos hratio, if_pos hcoin]
  by_cases h20 : 20 < peakCount ys (cy + rr * 0.6)
  · simp [if_pos h20, h20]
  · simp [if_neg h20, h20]

/-- Witness for the amended C8 at a concrete 21-point subset. -/
theorem foam_drawn_iff_over_twenty_witness :
    ((layerFoam (1 : ℚ) 6 (numColor (1, 1, 1)) (List.replicate 21 (0 : ℚ))
        (List.replicate 21 (1 : ℚ)) 0 0
        ⟨fun _ => 1, 0⟩ ⟨fun _ => 1, 0⟩).1.isSome = true ↔
      20 < peakCount (List.replicate 21 (1 : ℚ)) (0 + 0 * 0.6)) :=
  foam_drawn_iff_over_twenty 1 6 (numColor (1, 1, 1))
    (List.replicate 21 (0 : ℚ)) (List.replicate 21 (1 : ℚ)) 0 0
    ⟨fun _ => 1, 0⟩ ⟨fun _ => 1, 0⟩
    (by norm_num) (show (0.5 : ℚ) < 1 by norm_num)

/-- C4: with wobble 0 every blob point lies at distance exactly `r` from the
center — a perfect circle — in both the plain variant and the variant with
the `0.6 + 0.4*cos` angle weight. -/
theorem blob_wobble_zero_circle (c : ℝ × ℝ) (r : ℝ) (points : ℕ)
    (u : ℕ → ℝ) (i : ℕ) (hr : 0 < r) (hi : i < points) :
    dist2d ((blob c r points 0 u).getD i (0, 0)) c = r ∧
    dist2d ((blob_w3 c r points 0 u).getD i (0, 0)) c = r := by
  have hget : ∀ f : ℕ → ℝ × ℝ, ((List.range points).map f).getD i (0, 0) = f i := by
    intro f
    rw [List.getD_eq_getElem?_getD, List.getElem?_map, List.getElem?_range hi]
    rfl
  have hrad : ∀ w : ℝ, blobRadius r 0 (u i) w = r := by
    intro w
    unfold blobRadius
    ring
  constructor
  · unfold blob
    rw [hget, hrad, dist2d_polar]
    exact abs_of_pos hr
  · unfold blob_w3
    rw [hget, hrad, dist2d_polar]
    exact abs_of_pos hr

/-- Witness for C4 at a concrete circle. -/
theorem blob_wobble_zero_circle_witness :
    dist2d ((blob (0, 0) 1 4 0 (fun _ => 0.5)).getD 0 (0, 0)) (0, 0) = 1 ∧
    dist2d ((blob_w3 (0, 0) 1 4 0 (fun _ => 0.5)).getD 0 (0, 0)) (0, 0) = 1 :=
  blob_wobble_zero_circle (0, 0) 1 4 (fun _ => 0.5) 0 (by norm_num) (by norm_num)

/-- C10: for radius `r > 0` and `0 ≤ wobble ≤ 2`, every point of every blob
variant lies at a distance from the center inside the closed band
`[r(1 - wobble/2), r(1 + wobble/2)]`; the wave variant's angle weight in
`[0.2, 1]` keeps points in the same band. -/
theorem blob_wobble_band (c : ℝ × ℝ) (r : ℝ) (points : ℕ) (wobble : ℝ)
    (u : ℕ → ℝ) (i : ℕ) (hr : 0 < r) (hw0 : 0 ≤ wobble) (hw2 : wobble ≤ 2)
    (hu : ∀ n, 0 ≤ u n ∧ u n ≤ 1) (hi : i < points) :
    (r * (1 - wobble / 2) ≤ dist2d ((blob c r points wobble u).getD i (0, 0)) c ∧
      dist2d ((blob c r points wobble u).getD i (0, 0)) c ≤ r * (1 + wobble / 2)) ∧
    (r * (1 - wobble / 2) ≤ dist2d ((blob_w3 c r points wobble u).getD i (0, 0)) c ∧
      dist2d ((blob_w3 c r points wobble u).getD i (0, 0)) c ≤ r * (1 + wobble / 2)) ∧
    (r * (1 - wobble / 2) ≤ dist2d ((blob_app c r points wobble u).getD i (0, 0)) c ∧
      dist2d ((blob_app c r points wobble u).getD i (0, 0)) c ≤ r * (1 + wobble / 2)) := by
  have hget : ∀ f : ℕ → ℝ × ℝ, ((List.range points).map f).getD i (0, 0) = f i := by
    intro f
    rw [List.getD_eq_getElem?_getD, List.getElem?_map, List.getElem?_range hi]
    rfl
  have key : ∀ θ w : ℝ, -1 ≤ w → w ≤ 1 →
      r * (1 - wobble / 2) ≤
        dist2d (c.1 + blobRadius r wobble (u i) w * Real.cos θ,
                c.2 + blobRadius r wobble (u i) w * Real.sin θ) c ∧
      dist2d (c.1 + blobRadius r wobble (u i) w * Real.cos θ,
              c.2 + blobRadius r wobble (u i) w * Real.sin θ) c ≤
        r * (1 + wobble / 2) := by
    intro θ w hwa hwb
    obtain ⟨hlo, hhi, hnn⟩ :=
      blobRadius_band r wobble (u i) w hr hw0 hw2 (hu i).1 (hu i).2 hwa hwb
    rw [dist2d_polar, abs_of_nonneg hnn]
    exact ⟨hlo, hhi⟩
  refine ⟨?_, ?_, ?_⟩
  · unfold blob
    rw [hget]
    exact key (blobAngle points i) (angleWeight (blobAngle points i))
      (angleWeight_mem (blobAngle points i)).1
      (angleWeight_mem (blobAngle points i)).2
  · unfold blob_w3
    rw [hget]
    exact key (blobAngle points i) 1 (by norm_num) (by norm_num)
  · unfold blob_app
    rw [hget]
    exact key (blobAngleIncl points i) 1 (by norm_num) (by norm_num)

/-- Witness for C10 at a concrete input. -/
theorem blob_wobble_band_witness :
    ((1 : ℝ) * (1 - 1 / 2) ≤ dist2d ((blob (0, 0) 1 4 1 (fun _ => 0.5)).getD 0 (0, 0)) (0, 0) ∧
      dist2d ((blob (0, 0) 1 4 1 (fun _ => 0.5)).getD 0 (0, 0)) (0, 0) ≤ 1 * (1 + 1 / 2)) ∧
    ((1 : ℝ) * (1 - 1 / 2) ≤ dist2d ((blob_w3 (0, 0) 1 4 1 (fun _ => 0.5)).getD 0 (0, 0)) (0, 0) ∧
      dist2d ((blob_w3 (0, 0) 1 4 1 (fun _ => 0.5)).getD 0 (0, 0)) (0, 0) ≤ 1 * (1 + 1 / 2)) ∧
    ((1 : ℝ) * (1 - 1 / 2) ≤ dist2d ((blob_app (0, 0) 1 4 1 (fun _ => 0.5)).getD 0 (0, 0)) (0, 0) ∧
      dist2d ((blob_app (0, 0) 1 4 1 (fun _ => 0.5)).getD 0 (0, 0)) (0, 0) ≤ 1 * (1 + 1 / 2)) :=
  blob_wobble_band (0, 0) 1 4 1 (fun _ => 0.5) 0 (by norm_num) (by norm_num)
    (by norm_num) (fun _ => ⟨by norm_num, by norm_num⟩) (by norm_num)

/-- C5: for every procedural mode (every mode other than "csv", covering
pastel, vivid, mono and the random/default branch) and every requested count
`k`, both `make_palette` variants return exactly `k` colors, every channel a
number in `[0, 1]`. -/
theorem make_palette_size_channels {α : Type} [LinearOrderedField α]
    [FloorRing α] (t : Table α) (k : ℕ) (mode : String) (b : α)
    (st : RState α) (hmode : mode ≠ "csv")
    (hu : ∀ n, 0 ≤ st.stream n ∧ st.stream n ≤ 1)
    (hb0 : 0 ≤ b) (hb1 : b ≤ 1) :
    (∃ pal s2, make_palette t k mode b st = .ok (pal, s2) ∧ pal.length = k ∧
      ∀ c ∈ pal, ∃ x y z, c = (Sum.inl x, Sum.inl y, Sum.inl z) ∧
        0 ≤ x ∧ x ≤ 1 ∧ 0 ≤ y ∧ y ≤ 1 ∧ 0 ≤ z ∧ z ≤ 1) ∧
    ((make_palette_w3 k mode b st).1.length = k ∧
      ∀ c ∈ (make_palette_w3 k mode b st).1, ∃ x y z,
        c = (Sum.inl x, Sum.inl y, Sum.inl z) ∧
        0 ≤ x ∧ x ≤ 1 ∧ 0 ≤ y ∧ y ≤ 1 ∧ 0 ≤ z ∧ z ≤ 1) := by
  have spec1 := make_paletteAux_spec paletteDraws mode b k st
    (fun s2 hs2 => paletteDraws_spec mode b s2 hs2 hb0 hb1) hu
  have spec2 := make_paletteAux_spec paletteDrawsW3 mode b k st
    (fun s2 hs2 => paletteDrawsW3_spec mode b s2 hs2 hb0 hb1) hu
  constructor
  · refine ⟨(make_paletteAux paletteDraws mode b k st).1,
      (make_paletteAux paletteDraws mode b k st).2, ?_, spec1.1, spec1.2⟩
    unfold make_palette
    rw [if_neg hmode, Prod.mk.eta]
  · exact spec2

/-- Witness for C5 at mode "mono", k = 1, over the rationals. -/
theorem make_palette_size_channels_witness :
    (∃ pal s2, make_palette (α := ℚ) ⟨["name", "r", "g", "b"], []⟩ 1 "mono"
        0.6 ⟨fun _ => 0.5, 0⟩ = .ok (pal, s2) ∧ pal.length = 1 ∧
      ∀ c ∈ pal, ∃ x y z, c = (Sum.inl x, Sum.inl y, Sum.inl z) ∧
        0 ≤ x ∧ x ≤ 1 ∧ 0 ≤ y ∧ y ≤ 1 ∧ 0 ≤ z ∧ z ≤ 1) ∧
    ((make_palette_w3 (α := ℚ) 1 "mono" 0.6 ⟨fun _ => 0.5, 0⟩).1.length = 1 ∧
      ∀ c ∈ (make_palette_w3 (α := ℚ) 1 "mono" 0.6 ⟨fun _ => 0.5, 0⟩).1,
        ∃ x y z, c = (Sum.inl x, Sum.inl y, Sum.inl z) ∧
        0 ≤ x ∧ x ≤ 1 ∧ 0 ≤ y ∧ y ≤ 1 ∧ 0 ≤ z ∧ z ≤ 1) :=
  make_palette_size_channels ⟨["name", "r", "g", "b"], []⟩ 1 "mono" 0.6
    ⟨fun _ => 0.5, 0⟩ (by simp)
    (fun _ => ⟨show (0 : ℚ) ≤ 0.5 by norm_num, show (0.5 : ℚ) ≤ 1 by norm_num⟩)
    (by norm_num) (by norm_num)

/-- C7 counterexample: a palette table with an out-of-range channel (1.5) and
one with a non-numeric channel cell both load successfully — no
PersistenceError, the broken palette is returned as-is; a zero-row table
missing all required columns also loads successfully as the empty palette. -/
theorem load_csv_palette_malformed_silent_cex :
    load_csv_palette tMalformed =
      .ok [(Sum.inl 0.1, Sum.inl 0.2, Sum.inl 1.5)] ∧
    ¬ ((1.5 : ℚ) ≤ 1) ∧
    load_csv_palette tNonNumeric =
      .ok [(Sum.inr "oops", Sum.inl 0.2, Sum.inl 0.3)] ∧
    load_csv_palette tHeaderless = .ok [] := by
  refine ⟨?_, by norm_num, ?_, ?_⟩ <;> rfl

/-- C7 amended: loading the palette table fails (with an attribute error,
raised by the per-row attribute access) exactly when the table has at least
one data row and one of the required columns r/g/b is missing; a zero-row
table loads as the empty palette even with a malformed header, and the cell
contents are never validated — non-numeric or out-of-range channels load
silently. -/
theorem load_csv_palette_ok_iff_columns {α : Type} (t : Table α) :
    (∃ pal, load_csv_palette t = .ok pal) ↔
      (t.rows = [] ∨ ("r" ∈ t.cols ∧ "g" ∈ t.cols ∧ "b" ∈ t.cols)) := by
  obtain ⟨cols, rows⟩ := t
  rcases rows with _ | ⟨r0, rs⟩
  · simp [load_csv_palette]
  · have hri := colIdx_eq_none_iff cols "r"
    have hgi := colIdx_eq_none_iff cols "g"
    have hbi := colIdx_eq_none_iff cols "b"
    unfold load_csv_palette
    rcases er : colIdx cols "r" with _ | ir
    · have hnm : "r" ∉ cols := hri.mp er
      simp [er, hnm]
    · have hrm : "r" ∈ cols := by
        by_contra hm
        rw [hri.mpr hm] at er
        cases er
      rcases eg : colIdx cols "g" with _ | ig
      · have hnm : "g" ∉ cols := hgi.mp eg
        simp [er, eg, hnm]
      · have hgm : "g" ∈ cols := by
          by_contra hm
          rw [hgi.mpr hm] at eg
          cases eg
        rcases eb : colIdx cols "b" with _ | ib
        · have hnm : "b" ∉ cols := hbi.mp eb
          simp [er, eg, eb, hnm]
        · have hbm : "b" ∈ cols := by
            by_contra hm
            rw [hbi.mpr hm] at eb
            cases eb
          simp [er, eg, eb, hrm, hgm, hbm]

/-- Witness for the amended C7 at a concrete well-headed one-row table. -/
theorem load_csv_palette_ok_iff_columns_witness :
    ∃ pal, load_csv_palette tMalformed = .ok pal :=
  (load_csv_palette_ok_iff_columns tMalformed).mpr
    (Or.inr ⟨by simp [tMalformed], by simp [tMalformed], by simp [tMalformed]⟩)
